import Mathlib

/-!
Verification development for the flashcard_backend repository.

The Flask application `app.py` is shallowly embedded below: JSON request
bodies become an inductive `JsonVal` type mirroring what `request.get_json()`
yields in Python (None / bool / int / float / str / list / dict), Python
runtime exceptions raised during the handler become a `PyErr` error value
threaded through `Except`, and the single outbound OpenAI chat-completion
call becomes an explicit function parameter from the constructed call
parameters to an upstream outcome, so that theorems can speak about whether
and with which arguments the outbound call happened.
-/

set_option maxHeartbeats 1000000

namespace FlashcardBackend

/-- JSON values as produced by Flask `request.get_json()`: Python `None`,
`bool`, `int`, `float`, `str`, `list`, `dict` (a `dict` is kept as an
association list of string keys). -/
inductive JsonVal where
  | null
  | bool (b : Bool)
  | int (n : ℤ)
  | float (q : ℚ)
  | str (s : String)
  | arr (xs : List JsonVal)
  | obj (fields : List (String × JsonVal))

/-- Python runtime exceptions that the handler body can raise while picking
the request apart; all of them are caught by the handler's final
`except Exception` clause. -/
inductive PyErr where
  | typeError
  | keyError
  | attributeError

/-- Key lookup in a JSON object (first binding wins, as in a Python dict). -/
def lookupField : List (String × JsonVal) → String → Option JsonVal
  | [], _ => none
  | (k, v) :: rest, key => if k = key then some v else lookupField rest key

/-- Python truthiness of a JSON value (`bool(x)`). -/
def pyTruthy : JsonVal → Bool
  | .null => false
  | .bool b => b
  | .int n => decide (n ≠ 0)
  | .float q => decide (q ≠ 0)
  | .str s => decide (s ≠ "")
  | .arr xs => !xs.isEmpty
  | .obj fs => !fs.isEmpty

/-- Python `==` between a JSON value and a string: only equal strings
compare equal, any non-string value compares unequal. -/
def jsonEqStr (v : JsonVal) (s : String) : Bool :=
  match v with
  | .str t => t == s
  | _ => false

/-- Python `str.strip()`: drop leading and trailing whitespace. -/
def pyStripStr (s : String) : String :=
  ⟨((s.data.dropWhile Char.isWhitespace).reverse.dropWhile Char.isWhitespace).reverse⟩

/-- Python `len` on a string: number of code points. -/
def pyLen (s : String) : Nat :=
  s.data.length

/-- Substring test on character lists, for Python `key in someString`. -/
def charListHasSub (pat : List Char) : List Char → Bool
  | [] => pat.isEmpty
  | c :: rest => pat.isPrefixOf (c :: rest) || charListHasSub pat rest

/-- Python `key in data`: key membership for a dict, element membership for
a list, substring test for a string, `TypeError` for other values. -/
def pyContains (data : JsonVal) (key : String) : Except PyErr Bool :=
  match data with
  | .obj fs => .ok (lookupField fs key).isSome
  | .arr xs => .ok (xs.any (fun v => jsonEqStr v key))
  | .str s => .ok (charListHasSub key.data s.data)
  | _ => .error .typeError

/-- Python `data[key]` with a string key: dict lookup (`KeyError` when the
key is absent), `TypeError` for every non-dict value. -/
def pySubscript (data : JsonVal) (key : String) : Except PyErr JsonVal :=
  match data with
  | .obj fs =>
    match lookupField fs key with
    | some v => .ok v
    | none => .error .keyError
  | _ => .error .typeError

/-- Python `data.get(key)` (default `None`): `AttributeError` on non-dicts. -/
def pyDictGet (data : JsonVal) (key : String) : Except PyErr JsonVal :=
  match data with
  | .obj fs => .ok ((lookupField fs key).getD .null)
  | _ => .error .attributeError

/-- Python `data.get(key, default)`: `AttributeError` on non-dicts. -/
def pyDictGetDefault (data : JsonVal) (key : String) (dflt : JsonVal) :
    Except PyErr JsonVal :=
  match data with
  | .obj fs => .ok ((lookupField fs key).getD dflt)
  | _ => .error .attributeError

/-- The model allow-list from `app.py`. -/
def valid_models : List String :=
  ["gpt-3.5-turbo", "gpt-4", "gpt-4-turbo-preview", "gpt-3.5-turbo-16k"]

/-- Mirrors `model = data.get('model', 'gpt-3.5-turbo')` followed by the
allow-list check `if model not in valid_models: model = 'gpt-3.5-turbo'`;
a non-string value never equals any allow-list entry, so it also falls
back. -/
def normalizeModel (v : JsonVal) : String :=
  match v with
  | .str s => if s ∈ valid_models then s else "gpt-3.5-turbo"
  | _ => "gpt-3.5-turbo"

/-- Python `isinstance(v, int)`: true for ints and for bools (bool is a
subclass of int in Python). -/
def pyIsInstInt : JsonVal → Bool
  | .int _ => true
  | .bool _ => true
  | _ => false

/-- Numeric value of an int-like JSON value (`True` counts as 1). -/
def pyIntVal : JsonVal → ℤ
  | .int n => n
  | .bool b => if b then 1 else 0
  | _ => 0

/-- Mirrors `if not isinstance(max_tokens, int) or max_tokens < 1 or
max_tokens > 4000: max_tokens = 1000`. -/
def normalizeMaxTokens (v : JsonVal) : ℤ :=
  if pyIsInstInt v = true ∧ 1 ≤ pyIntVal v ∧ pyIntVal v ≤ 4000 then pyIntVal v else 1000

/-- Python `isinstance(v, (int, float))`: ints, floats and bools. -/
def pyIsInstNumeric : JsonVal → Bool
  | .int _ => true
  | .float _ => true
  | .bool _ => true
  | _ => false

/-- Numeric value of a number-like JSON value as a rational. -/
def pyRatVal : JsonVal → ℚ
  | .int n => (n : ℚ)
  | .float q => q
  | .bool b => if b then 1 else 0
  | _ => 0

/-- Mirrors `if not isinstance(temperature, (int, float)) or temperature < 0
or temperature > 2: temperature = 0.7`. -/
def normalizeTemperature (v : JsonVal) : ℚ :=
  if pyIsInstNumeric v = true ∧ 0 ≤ pyRatVal v ∧ pyRatVal v ≤ 2 then pyRatVal v else 7/10

/-- The fixed system message sent on every outbound call. -/
def systemPrompt : String :=
  "You are a helpful assistant that creates educational flashcards. Generate well-structured flashcards based on the given topic or content."

/-- Parameters of the outbound `openai_client.chat.completions.create` call. -/
structure CallParams where
  model : String
  maxTokens : ℤ
  temperature : ℚ
  systemContent : String
  userContent : String

/-- Exceptions the OpenAI client can raise, keyed by the exception class
hierarchy of the `openai` package: `RateLimitError`, `AuthenticationError`
and `BadRequestError` are the three subclasses the handler names;
`APITimeoutError` and `APIConnectionError` are subclasses of `OpenAIError`
that no dedicated `except` clause matches; `otherOpenAI` is any other
`OpenAIError`; `otherExc` is an exception outside the OpenAI hierarchy. -/
inductive UpstreamFailure where
  | rateLimit
  | auth
  | badRequest
  | timeout
  | connection
  | otherOpenAI
  | otherExc

/-- Result of the single outbound completion call. -/
inductive UpstreamOutcome where
  | success (content rmodel : String) (pt ct tt : ℤ)
  | failure (e : UpstreamFailure)

/-- An HTTP response: status code plus JSON body (association list). -/
structure Response where
  status : Nat
  body : List (String × JsonVal)

/-- The error pair `jsonify({'success': False, 'error': msg}), status`. -/
def errResp (status : Nat) (msg : String) : Response :=
  ⟨status, [("success", .bool false), ("error", .str msg)]⟩

/-- The 200 body built on upstream success. -/
def successResp (content rmodel : String) (pt ct tt : ℤ) : Response :=
  ⟨200, [("success", .bool true), ("content", .str content), ("model", .str rmodel),
         ("usage", .obj [("prompt_tokens", .int pt), ("completion_tokens", .int ct),
                         ("total_tokens", .int tt)])]⟩

/-- Lookup of a field in a response body. -/
def bodyLookup (r : Response) (key : String) : Option JsonVal :=
  lookupField r.body key

/-- The handler's `except` clauses in source order: `RateLimitError` 429,
`AuthenticationError` 401, `BadRequestError` 400, `OpenAIError` 500
(this is where timeouts and transport errors land, since `APITimeoutError`
and `APIConnectionError` are `OpenAIError` subclasses with no dedicated
clause), bare `Exception` 500. -/
def mapUpstreamFailure : UpstreamFailure → Response
  | .rateLimit => errResp 429 "Rate limit exceeded. Please try again later."
  | .auth => errResp 401 "Authentication failed"
  | .badRequest => errResp 400 "Invalid request to OpenAI API"
  | .timeout => errResp 500 "OpenAI API error"
  | .connection => errResp 500 "OpenAI API error"
  | .otherOpenAI => errResp 500 "OpenAI API error"
  | .otherExc => errResp 500 "Internal server error"

/-- The `for msg in data['messages']` loop: take the first element whose
`role` is `'user'`, read its `content` (else its `prompt`) and stop; a
missing key on that first user element leaves `user_message = None`.
`msg.get('role')` raises `AttributeError` on a non-dict element. -/
def findUserMessage : List JsonVal → Except PyErr JsonVal
  | [] => .ok .null
  | msg :: rest =>
    match pyDictGet msg "role" with
    | .error e => .error e
    | .ok role =>
      if jsonEqStr role "user" then
        match pySubscript msg "content" with
        | .ok c => .ok c
        | .error _ =>
          match pySubscript msg "prompt" with
          | .ok p => .ok p
          | .error _ => .ok .null
      else findUserMessage rest

/-- Lines 54–75 of `app.py`: bind `prompt` from the `prompt` key, or from
the messages fallback; `.inl` carries the error string of an early 400
return, `.inr` the bound prompt value. -/
def extractPrompt (data : JsonVal) : Except PyErr (Sum String JsonVal) :=
  match pyContains data "prompt" with
  | .error e => .error e
  | .ok true =>
    match pySubscript data "prompt" with
    | .error e => .error e
    | .ok v => .ok (.inr v)
  | .ok false =>
    match pyContains data "messages" with
    | .error e => .error e
    | .ok false => .ok (.inl "Either prompt or messages are required")
    | .ok true =>
      match pySubscript data "messages" with
      | .error e => .error e
      | .ok m =>
        match m with
        | .arr msgs =>
          if msgs.isEmpty then .ok (.inl "Either prompt or messages are required")
          else
            match findUserMessage msgs with
            | .error e => .error e
            | .ok um =>
              if pyTruthy um then .ok (.inr um)
              else .ok (.inl "No user message found with content or prompt")
        | _ => .ok (.inl "Either prompt or messages are required")

/-- The check `if not prompt or not prompt.strip()`: returns `none` when it
fires (empty prompt), `some s` with the original string otherwise;
`.strip()` raises `AttributeError` on a truthy non-string. -/
def validatePrompt (p : JsonVal) : Except PyErr (Option String) :=
  if pyTruthy p then
    match p with
    | .str s => .ok (if pyStripStr s = "" then none else some s)
    | _ => .error .attributeError
  else .ok none

/-- Lines 77–158 of `app.py` after `prompt` is bound: the empty check, the
optional-parameter normalization, the length check, the outbound call and
the mapping of its outcome. The second component records the outbound call
(`none` = the call never happened). -/
def afterPrompt (data : JsonVal) (promptVal : JsonVal)
    (u : CallParams → UpstreamOutcome) :
    Except PyErr (Response × Option CallParams) :=
  match validatePrompt promptVal with
  | .error e => .error e
  | .ok none => .ok (errResp 400 "Prompt cannot be empty", none)
  | .ok (some s) =>
    match pyDictGetDefault data "model" (.str "gpt-3.5-turbo") with
    | .error e => .error e
    | .ok mv =>
      match pyDictGetDefault data "max_tokens" (.int 1000) with
      | .error e => .error e
      | .ok tv =>
        match pyDictGetDefault data "temperature" (.float (7/10)) with
        | .error e => .error e
        | .ok temv =>
          if 4000 < pyLen s then
            .ok (errResp 400 "Prompt too long (max 4000 characters)", none)
          else
            match u ⟨normalizeModel mv, normalizeMaxTokens tv, normalizeTemperature temv,
                     systemPrompt, s⟩ with
            | .success content rmodel pt ct tt =>
              .ok (successResp content rmodel pt ct tt,
                   some ⟨normalizeModel mv, normalizeMaxTokens tv, normalizeTemperature temv,
                         systemPrompt, s⟩)
            | .failure f =>
              .ok (mapUpstreamFailure f,
                   some ⟨normalizeModel mv, normalizeMaxTokens tv, normalizeTemperature temv,
                         systemPrompt, s⟩)

/-- The body of the handler's `try` block. -/
def runGenerate (data : JsonVal) (u : CallParams → UpstreamOutcome) :
    Except PyErr (Response × Option CallParams) :=
  match extractPrompt data with
  | .error e => .error e
  | .ok (.inl msg) => .ok (errResp 400 msg, none)
  | .ok (.inr v) => afterPrompt data v u

/-- The `/generate` handler: the `request.is_json` guard, the `try` body,
and the final `except Exception` clause turning any Python error raised
while picking the request apart into a 500. -/
def generate_flashcards (isJson : Bool) (data : JsonVal)
    (u : CallParams → UpstreamOutcome) : Response × Option CallParams :=
  if isJson then
    match runGenerate data u with
    | .ok r => r
    | .error _ => (errResp 500 "Internal server error", none)
  else (errResp 400 "Request must be JSON", none)

/-- The `/health` handler (timestamp is an input, `datetime.now()`). -/
def health_check (timestamp : String) : Response :=
  ⟨200, [("status", .str "healthy"), ("timestamp", .str timestamp),
         ("service", .str "flashcard-backend")]⟩

/-- The 404 error handler. -/
def not_found : Response :=
  ⟨404, [("error", .str "Endpoint not found")]⟩

/-- The 405 error handler. -/
def method_not_allowed : Response :=
  ⟨405, [("error", .str "Method not allowed")]⟩

/-- The 500 error handler. -/
def internal_error : Response :=
  ⟨500, [("error", .str "Internal server error")]⟩

/-- HTTP request methods. -/
inductive HttpMethod where
  | GET
  | POST
  | PUT
  | DELETE
deriving DecidableEq

/-- Flask routing over the two registered routes: `/health` is GET-only and
`/generate` is POST-only; a wrong method on a known route answers 405, an
unknown path answers 404. -/
def dispatch (m : HttpMethod) (path : String) (timestamp : String)
    (isJson : Bool) (data : JsonVal) (u : CallParams → UpstreamOutcome) : Response :=
  match path, m with
  | "/health", .GET => health_check timestamp
  | "/health", _ => method_not_allowed
  | "/generate", .POST => (generate_flashcards isJson data u).1
  | "/generate", _ => method_not_allowed
  | _, _ => not_found

/-!
The Flashcard Extractor of spec §4.3 is not present under `src/` (the
repository's extractor lives in revisions of the file that were not
shipped here); it is modelled from the spec below, at the granularity of
lines classified against the spec's block grammar.
-/

/-- Modelled from the spec: the flashcard extractor of §4.3 is missing from
`src/`. A line of the generated text, classified against the spec's block
grammar "(optional label) INDEX : … question-marker … TEXT … answer-marker
… TEXT": an index line (the optional label is abstracted away and only the
integer index kept), a question-marker line with its text, an
answer-marker line with its text, or any other line. -/
inductive Line where
  | indexLine (idx : Nat)
  | questionLine (text : String)
  | answerLine (text : String)
  | other (text : String)

/-- Modelled from the spec: the integer index when a line is an index
marker, the start-of-block boundary for the scan. -/
def lineIndex : Line → Option Nat
  | .indexLine i => some i
  | _ => none

/-- Modelled from the spec: the raw text carried by a non-boundary line. -/
def lineText : Line → String
  | .indexLine _ => ""
  | .questionLine t => t
  | .answerLine t => t
  | .other t => t

/-- Modelled from the spec: the answer text "extends up to (but not
including) the start of the next index marker or the end of the input" —
the answer-marker line's text joined with every further line of the span. -/
def joinLines (a : String) (tail : List Line) : String :=
  tail.foldl (fun acc l => acc ++ "\n" ++ lineText l) a

/-- Modelled from the spec: matching one span (the lines strictly between
an index marker and the next index marker or end of input). The span must
present a question marker and then an answer marker; "malformed or missing
markers simply produce no match for that span (no partial records, no
error raised)". Question and answer are trimmed of surrounding whitespace. -/
def parseBlock : List Line → Option (String × String)
  | .questionLine q :: .answerLine a :: tail =>
    some (pyStripStr q, pyStripStr (joinLines a tail))
  | _ => none

/-- Modelled from the spec: candidate block emitted when a new index marker
(or the end of input) closes the current span; `cur` holds the lines of
the open span in reverse accumulation order, `none` when no index marker
has been seen yet. -/
def finishBlock (cur : Option (List Line)) : List (String × String) :=
  match cur with
  | none => []
  | some span =>
    match parseBlock span.reverse with
    | some qa => [qa]
    | none => []

/-- Modelled from the spec: the non-overlapping, greedy, left-to-right scan
over the lines; an index marker closes the open span (emitting its record
when the span matches) and opens a new one, all other lines extend the
open span and are skipped entirely before the first index marker. -/
def extractAux : List Line → Option (List Line) → List (String × String)
  | [], cur => finishBlock cur
  | l :: rest, cur =>
    match lineIndex l with
    | some _ => finishBlock cur ++ extractAux rest (some [])
    | none =>
      match cur with
      | none => extractAux rest none
      | some span => extractAux rest (some (l :: span))

/-- Modelled from the spec: "given raw text, produce a finite, restartable,
ordered sequence of Flashcard, possibly empty" — the full extractor. -/
def extractFlashcards (lines : List Line) : List (String × String) :=
  extractAux lines none

/-- Modelled from the spec: a well-formed source block, carrying the index
written on its index line and the question/answer texts of its marker
lines. -/
structure Block where
  idx : Nat
  question : String
  answer : String

/-- Modelled from the spec: the text lines of one well-formed block. -/
def renderBlock (b : Block) : List Line :=
  [Line.indexLine b.idx, Line.questionLine b.question, Line.answerLine b.answer]

/-- Modelled from the spec: a whole source text made of consecutive
well-formed blocks. -/
def renderBlocks : List Block → List Line
  | [] => []
  | b :: bs => renderBlock b ++ renderBlocks bs

/-!
Observer predicates over a request body, used as claim hypotheses. They
describe the shape of the input (which keys are present, whether the
extracted prompt value is blank, its length), not the handler's output.
-/

/-- A prompt value that the emptiness check rejects: falsy, or a string
that is blank after stripping. -/
def emptyishB (v : JsonVal) : Bool :=
  !pyTruthy v ||
    (match v with
     | .str s => pyStripStr s == ""
     | _ => false)

/-- The request body binds no prompt at all and the handler's extraction
phase rejects it with a 400 (prompt key absent, and the messages fallback
either unavailable or yielding nothing truthy without raising). -/
def promptMissingB (fs : List (String × JsonVal)) : Bool :=
  match lookupField fs "prompt" with
  | some _ => false
  | none =>
    match lookupField fs "messages" with
    | some (.arr msgs) =>
      if msgs.isEmpty then true
      else
        match findUserMessage msgs with
        | .ok c => !pyTruthy c
        | .error _ => false
    | some _ => true
    | none => true

/-- The value the handler binds to `prompt` when extraction succeeds:
the `prompt` field when present, otherwise the truthy first-user-message
content from a non-empty messages list. -/
def promptValB (fs : List (String × JsonVal)) : Option JsonVal :=
  match lookupField fs "prompt" with
  | some v => some v
  | none =>
    match lookupField fs "messages" with
    | some (.arr msgs) =>
      if msgs.isEmpty then none
      else
        match findUserMessage msgs with
        | .ok c => if pyTruthy c then some c else none
        | .error _ => none
    | _ => none

/-- A prompt is bound but is empty after trimming (or falsy). -/
def promptEmptyB (fs : List (String × JsonVal)) : Bool :=
  match promptValB fs with
  | some v => emptyishB v
  | none => false

/-- The body is missing a usable prompt or its prompt is empty after
trimming. -/
def promptMissingOrEmptyB (fs : List (String × JsonVal)) : Bool :=
  promptMissingB fs || promptEmptyB fs

/-- The bound prompt is a non-blank string longer than 4000 characters. -/
def promptTooLongB (fs : List (String × JsonVal)) : Bool :=
  match promptValB fs with
  | some (.str s) => decide (pyStripStr s ≠ "") && decide (4000 < pyLen s)
  | _ => false

/-!
Shared helper definitions and lemmas.
-/

/-- A stub upstream used in closed statements: every call fails with an
exception outside the OpenAI hierarchy. -/
def stubUpstream : CallParams → UpstreamOutcome := fun _ => .failure .otherExc

/-- A prompt string of 4001 copies of `'a'`. -/
def longPromptA : String := ⟨List.replicate 4001 'a'⟩

/-- A prompt string of 4001 spaces. -/
def blankPrompt4001 : String := ⟨List.replicate 4001 ' '⟩

/-- A request with an unknown model, out-of-range `max_tokens` and
out-of-range temperature. -/
def c4Data : JsonVal :=
  .obj [("prompt", .str "hi"), ("model", .str "bogus"), ("max_tokens", .int 9999),
        ("temperature", .float 5)]

/-- The parameters actually sent for `c4Data`: every bad field replaced by
its default. -/
def c4Params : CallParams := ⟨"gpt-3.5-turbo", 1000, 7/10, systemPrompt, "hi"⟩

theorem bodyLookup_errResp_success (code : Nat) (msg : String) :
    bodyLookup (errResp code msg) "success" = some (.bool false) := rfl

theorem bodyLookup_errResp_error (code : Nat) (msg : String) :
    bodyLookup (errResp code msg) "error" = some (.str msg) := rfl

theorem errResp_status (code : Nat) (msg : String) : (errResp code msg).status = code := rfl

theorem pyStripStr_mk (l : List Char) :
    pyStripStr ⟨l⟩ =
      ⟨((l.dropWhile Char.isWhitespace).reverse.dropWhile Char.isWhitespace).reverse⟩ := rfl

theorem pyLen_mk (l : List Char) : pyLen ⟨l⟩ = l.length := rfl

theorem dropWhile_ws_replicate_pos {c : Char} (h : c.isWhitespace = true) (n : Nat) :
    List.dropWhile Char.isWhitespace (List.replicate n c) = [] := by
  induction n with
  | zero => rfl
  | succ m ih => rw [List.replicate_succ, List.dropWhile_cons_of_pos (by simp [h]), ih]

theorem dropWhile_ws_replicate_neg {c : Char} (h : c.isWhitespace = false) (n : Nat) :
    List.dropWhile Char.isWhitespace (List.replicate n c) = List.replicate n c := by
  cases n with
  | zero => rfl
  | succ m => rw [List.replicate_succ, List.dropWhile_cons_of_neg (by simp [h])]

theorem pyStripStr_replicate_pos {c : Char} (h : c.isWhitespace = true) (n : Nat) :
    pyStripStr ⟨List.replicate n c⟩ = "" := by
  rw [pyStripStr_mk, dropWhile_ws_replicate_pos h]
  rfl

theorem pyStripStr_replicate_neg {c : Char} (h : c.isWhitespace = false) (n : Nat) :
    pyStripStr ⟨List.replicate n c⟩ = ⟨List.replicate n c⟩ := by
  rw [pyStripStr_mk, dropWhile_ws_replicate_neg h, List.reverse_replicate,
    dropWhile_ws_replicate_neg h, List.reverse_replicate]

theorem pyStripStr_empty : pyStripStr "" = "" := rfl

/-- The status code attached to each upstream failure class by the
handler's `except` clauses. -/
theorem mapUpstreamFailure_shape (f : UpstreamFailure) :
    ∃ code msg, mapUpstreamFailure f = errResp code msg ∧ code ≠ 200 ∧ msg ≠ "" := by
  cases f
  case rateLimit => exact ⟨429, _, rfl, by decide, by decide⟩
  case auth => exact ⟨401, _, rfl, by decide, by decide⟩
  case badRequest => exact ⟨400, _, rfl, by decide, by decide⟩
  case timeout => exact ⟨500, _, rfl, by decide, by decide⟩
  case connection => exact ⟨500, _, rfl, by decide, by decide⟩
  case otherOpenAI => exact ⟨500, _, rfl, by decide, by decide⟩
  case otherExc => exact ⟨500, _, rfl, by decide, by decide⟩

theorem pyContains_obj (fs : List (String × JsonVal)) (key : String) :
    pyContains (.obj fs) key = .ok (lookupField fs key).isSome := rfl

theorem pyDictGetDefault_obj (fs : List (String × JsonVal)) (key : String) (d : JsonVal) :
    pyDictGetDefault (.obj fs) key d = .ok ((lookupField fs key).getD d) := rfl

theorem lookupField_cons_ne (k : String) (v : JsonVal) (fs : List (String × JsonVal))
    (key : String) (h : k ≠ key) :
    lookupField ((k, v) :: fs) key = lookupField fs key := by
  simp [lookupField, h]

/-- When the body binds a prompt value (directly or through the messages
fallback), the extraction phase hands exactly that value on. -/
theorem extractPrompt_obj_val (fs : List (String × JsonVal)) (v : JsonVal)
    (h : promptValB fs = some v) :
    extractPrompt (.obj fs) = .ok (.inr v) := by
  cases hp : lookupField fs "prompt" with
  | some w =>
    simp only [promptValB, hp, Option.some.injEq] at h
    subst h
    simp [extractPrompt, pyContains, pySubscript, hp]
  | none =>
    cases hm : lookupField fs "messages" with
    | none => simp [promptValB, hp, hm] at h
    | some m =>
      cases m with
      | arr msgs =>
        cases he : msgs.isEmpty with
        | true => simp [promptValB, hp, hm, he] at h
        | false =>
          cases hf : findUserMessage msgs with
          | error e => simp [promptValB, hp, hm, he, hf] at h
          | ok c =>
            cases ht : pyTruthy c with
            | false => simp [promptValB, hp, hm, he, hf, ht] at h
            | true =>
              simp only [promptValB, hp, hm, he, hf, ht, Bool.false_eq_true, if_false,
                if_true, Option.some.injEq] at h
              subst h
              simp [extractPrompt, pyContains, pySubscript, hp, hm, he, hf, ht]
      | null => simp [promptValB, hp, hm] at h
      | bool b => simp [promptValB, hp, hm] at h
      | int n => simp [promptValB, hp, hm] at h
      | float q => simp [promptValB, hp, hm] at h
      | str s => simp [promptValB, hp, hm] at h
      | obj fs2 => simp [promptValB, hp, hm] at h

/-- When the body binds no usable prompt (and the messages scan does not
raise), the extraction phase returns one of the two 400 messages. -/
theorem extractPrompt_obj_missing (fs : List (String × JsonVal))
    (h : promptMissingB fs = true) :
    extractPrompt (.obj fs) = .ok (.inl "Either prompt or messages are required") ∨
    extractPrompt (.obj fs) = .ok (.inl "No user message found with content or prompt") := by
  cases hp : lookupField fs "prompt" with
  | some w => simp [promptMissingB, hp] at h
  | none =>
    cases hm : lookupField fs "messages" with
    | none => left; simp [extractPrompt, pyContains, hp, hm]
    | some m =>
      cases m with
      | arr msgs =>
        cases he : msgs.isEmpty with
        | true => left; simp [extractPrompt, pyContains, pySubscript, hp, hm, he]
        | false =>
          cases hf : findUserMessage msgs with
          | error e => simp [promptMissingB, hp, hm, he, hf] at h
          | ok c =>
            cases ht : pyTruthy c with
            | true => simp [promptMissingB, hp, hm, he, hf, ht] at h
            | false =>
              right
              simp [extractPrompt, pyContains, pySubscript, hp, hm, he, hf, ht]
      | null => left; simp [extractPrompt, pyContains, pySubscript, hp, hm]
      | bool b => left; simp [extractPrompt, pyContains, pySubscript, hp, hm]
      | int n => left; simp [extractPrompt, pyContains, pySubscript, hp, hm]
      | float q => left; simp [extractPrompt, pyContains, pySubscript, hp, hm]
      | str s => left; simp [extractPrompt, pyContains, pySubscript, hp, hm]
      | obj fs2 => left; simp [extractPrompt, pyContains, pySubscript, hp, hm]

/-- A value the emptiness check rejects makes `validatePrompt` report the
empty prompt. -/
theorem validatePrompt_emptyish (v : JsonVal) (h : emptyishB v = true) :
    validatePrompt v = .ok none := by
  unfold emptyishB at h
  cases ht : pyTruthy v with
  | false => simp [validatePrompt, ht]
  | true =>
    cases v with
    | str s =>
      simp only [ht, Bool.not_true, Bool.false_or, beq_iff_eq] at h
      simp [validatePrompt, ht, h]
    | null => simp [ht] at h
    | bool b => simp [ht] at h
    | int n => simp [ht] at h
    | float q => simp [ht] at h
    | arr xs => simp [ht] at h
    | obj fs2 => simp [ht] at h

/-- A string that is non-blank after stripping passes the emptiness check
unchanged. -/
theorem validatePrompt_some (s : String) (h : pyStripStr s ≠ "") :
    validatePrompt (.str s) = .ok (some s) := by
  have hs : s ≠ "" := by
    intro he
    subst he
    exact h pyStripStr_empty
  simp [validatePrompt, pyTruthy, hs, h]

/-- Every validation failure on a JSON-object body produces a bare
`400 {success:false, error}` response and never reaches the outbound call. -/
theorem generate_validation_400 (fs : List (String × JsonVal))
    (u : CallParams → UpstreamOutcome)
    (h : promptMissingOrEmptyB fs = true ∨ promptTooLongB fs = true) :
    ∃ msg, generate_flashcards true (.obj fs) u = (errResp 400 msg, none) ∧ msg ≠ "" := by
  rcases h with h | h
  · rw [promptMissingOrEmptyB, Bool.or_eq_true] at h
    rcases h with h | h
    · rcases extractPrompt_obj_missing fs h with hE | hE
      · exact ⟨"Either prompt or messages are required",
          by simp [generate_flashcards, runGenerate, hE], by decide⟩
      · exact ⟨"No user message found with content or prompt",
          by simp [generate_flashcards, runGenerate, hE], by decide⟩
    · rw [promptEmptyB] at h
      cases hpv : promptValB fs with
      | none => rw [hpv] at h; cases h
      | some v =>
        rw [hpv] at h
        have hE := extractPrompt_obj_val fs v hpv
        have hV := validatePrompt_emptyish v h
        exact ⟨"Prompt cannot be empty",
          by simp [generate_flashcards, runGenerate, hE, afterPrompt, hV], by decide⟩
  · rw [promptTooLongB] at h
    cases hpv : promptValB fs with
    | none => rw [hpv] at h; cases h
    | some v =>
      rw [hpv] at h
      cases v with
      | str s =>
        simp only [Bool.and_eq_true, decide_eq_true_eq] at h
        obtain ⟨hstrip, hlen⟩ := h
        have hE := extractPrompt_obj_val fs (.str s) hpv
        have hV := validatePrompt_some s hstrip
        exact ⟨"Prompt too long (max 4000 characters)",
          by simp [generate_flashcards, runGenerate, hE, afterPrompt, hV,
                   pyDictGetDefault, hlen], by decide⟩
      | null => cases h
      | bool b => cases h
      | int n => cases h
      | float q => cases h
      | arr xs => cases h
      | obj fs2 => cases h

/-- Claim C1 counterexample: the claim quantifies over every JSON body, but
a JSON body that is not an object — here the JSON number `42`, which has no
usable prompt — makes `'prompt' in data` raise `TypeError`, so the handler
answers 500 through the catch-all clause, not the claimed 400. -/
theorem c1_counterexample :
    (generate_flashcards true (.int 42) stubUpstream).1.status = 500 ∧
    (generate_flashcards true (.int 42) stubUpstream).1.status ≠ 400 := by
  exact ⟨rfl, by decide⟩

/-- Claim C1 (amended: restricted to JSON-object bodies whose messages
scan, when taken, completes without raising; the raising cases — a
non-object body, or an object body whose messages list holds a non-object
element before any user-role message — are carved out and yield the
catch-all 500 instead, also never a 200): a JSON-object body missing a
usable prompt, or whose bound prompt is empty after trimming, gets a 400
with `success:false` and a non-empty validation error message, never a
200, and the outbound call is never made; and an object body without a
prompt key whose non-empty messages list makes the scan raise gets the
500 "Internal server error", also never a 200 and with no outbound call. -/
theorem c1_missing_or_empty_prompt_400 (fs : List (String × JsonVal))
    (u : CallParams → UpstreamOutcome) :
    (promptMissingOrEmptyB fs = true →
      (generate_flashcards true (.obj fs) u).1.status = 400 ∧
      bodyLookup (generate_flashcards true (.obj fs) u).1 "success" = some (.bool false) ∧
      (∃ e, bodyLookup (generate_flashcards true (.obj fs) u).1 "error" = some (.str e) ∧
        e ≠ "") ∧
      (generate_flashcards true (.obj fs) u).1.status ≠ 200 ∧
      (generate_flashcards true (.obj fs) u).2 = none) ∧
    (∀ msgs e, lookupField fs "prompt" = none →
      lookupField fs "messages" = some (.arr msgs) → msgs.isEmpty = false →
      findUserMessage msgs = .error e →
      generate_flashcards true (.obj fs) u = (errResp 500 "Internal server error", none) ∧
      (generate_flashcards true (.obj fs) u).1.status ≠ 200) := by
  constructor
  · intro h
    obtain ⟨msg, hEq, hne⟩ := generate_validation_400 fs u (Or.inl h)
    rw [hEq]
    exact ⟨rfl, rfl, ⟨msg, rfl, hne⟩, (by decide : (400 : Nat) ≠ 200), rfl⟩
  · intro msgs e h1 h2 h3 h4
    have hE : extractPrompt (.obj fs) = .error e := by
      simp [extractPrompt, pyContains, pySubscript, h1, h2, h3, h4]
    have hEq : generate_flashcards true (.obj fs) u =
        (errResp 500 "Internal server error", none) := by
      simp [generate_flashcards, runGenerate, hE]
    refine ⟨hEq, ?_⟩
    rw [hEq]
    exact (by decide : (500 : Nat) ≠ 200)

theorem c1_witness :
    promptMissingOrEmptyB [] = true ∧
    (generate_flashcards true (.obj []) stubUpstream).1.status = 400 ∧
    (generate_flashcards true (.obj [("messages", .arr [.int 42])]) stubUpstream).1.status
      ≠ 200 :=
  ⟨rfl, ((c1_missing_or_empty_prompt_400 [] stubUpstream).1 rfl).1,
    ((c1_missing_or_empty_prompt_400 [("messages", .arr [.int 42])] stubUpstream).2
      [.int 42] .attributeError rfl rfl rfl rfl).2⟩

/-- Claim C2 counterexample: a 4001-character whitespace-only prompt is
longer than 4000 characters, yet the handler's emptiness check fires first
and the 400 carries the empty-prompt message, which does not mention the
length limit. -/
theorem c2_counterexample :
    4000 < pyLen blankPrompt4001 ∧
    generate_flashcards true (.obj [("prompt", .str blankPrompt4001)]) stubUpstream =
      (errResp 400 "Prompt cannot be empty", none) ∧
    ("Prompt cannot be empty" : String) ≠ "Prompt too long (max 4000 characters)" := by
  refine ⟨?_, ?_, by decide⟩
  · simp only [blankPrompt4001, pyLen_mk, List.length_replicate]
    omega
  · have hpv : promptValB [("prompt", .str blankPrompt4001)] =
        some (.str blankPrompt4001) := by
      simp [promptValB, lookupField]
    have hstrip : pyStripStr blankPrompt4001 = "" := by
      simp only [blankPrompt4001]
      exact pyStripStr_replicate_pos (by decide) 4001
    have hE := extractPrompt_obj_val _ _ hpv
    have hV := validatePrompt_emptyish (.str blankPrompt4001) (by simp [emptyishB, hstrip])
    simp [generate_flashcards, runGenerate, hE, afterPrompt, hV]

/-- Claim C2 (amended: the error message mentions the length limit except
when the over-long prompt is whitespace-only, where the empty-prompt error
is reported instead): a prompt string longer than 4000 characters always
gets a 400 and the outbound call is never made; when the prompt is not
blank after trimming the message is the length-limit one. -/
theorem c2_overlong_prompt_400 (fs : List (String × JsonVal))
    (u : CallParams → UpstreamOutcome) (s : String)
    (hs : lookupField fs "prompt" = some (.str s)) (hl : 4000 < pyLen s) :
    (generate_flashcards true (.obj fs) u).1.status = 400 ∧
    (generate_flashcards true (.obj fs) u).2 = none ∧
    (pyStripStr s ≠ "" →
      bodyLookup (generate_flashcards true (.obj fs) u).1 "error" =
        some (.str "Prompt too long (max 4000 characters)")) := by
  have hpv : promptValB fs = some (.str s) := by
    simp only [promptValB, hs]
  by_cases hstrip : pyStripStr s = ""
  · have hme : promptMissingOrEmptyB fs = true := by
      simp only [promptMissingOrEmptyB, promptEmptyB, hpv]
      simp [emptyishB, hstrip]
    obtain ⟨msg, hEq, hne⟩ := generate_validation_400 fs u (Or.inl hme)
    rw [hEq]
    exact ⟨rfl, rfl, fun hc => absurd hstrip hc⟩
  · have hE := extractPrompt_obj_val fs (.str s) hpv
    have hV := validatePrompt_some s hstrip
    have hEq : generate_flashcards true (.obj fs) u =
        (errResp 400 "Prompt too long (max 4000 characters)", none) := by
      simp [generate_flashcards, runGenerate, hE, afterPrompt, hV, pyDictGetDefault, hl]
    rw [hEq]
    exact ⟨rfl, rfl, fun _ => rfl⟩

theorem c2_witness :
    lookupField [("prompt", JsonVal.str longPromptA)] "prompt" =
      some (.str longPromptA) ∧
    4000 < pyLen longPromptA ∧
    (generate_flashcards true (.obj [("prompt", .str longPromptA)]) stubUpstream).1.status
      = 400 := by
  have hl : 4000 < pyLen longPromptA := by
    simp only [longPromptA, pyLen_mk, List.length_replicate]
    omega
  exact ⟨by simp [lookupField], hl,
    (c2_overlong_prompt_400 _ stubUpstream _ (by simp [lookupField]) hl).1⟩

/-- Claim C5: every validation failure (non-JSON body, missing or empty
prompt on an object body, over-long prompt) answers 400 and the outbound
completion call is never invoked. -/
theorem c5_validation_short_circuits (isJson : Bool) (data : JsonVal)
    (u : CallParams → UpstreamOutcome)
    (h : isJson = false ∨
      ∃ fs, data = .obj fs ∧
        (promptMissingOrEmptyB fs = true ∨ promptTooLongB fs = true)) :
    (generate_flashcards isJson data u).1.status = 400 ∧
    (generate_flashcards isJson data u).2 = none := by
  rcases h with h | ⟨fs, hd, hf⟩
  · subst h
    exact ⟨rfl, rfl⟩
  · subst hd
    cases isJson with
    | false => exact ⟨rfl, rfl⟩
    | true =>
      obtain ⟨msg, hEq, _⟩ := generate_validation_400 fs u hf
      rw [hEq]
      exact ⟨rfl, rfl⟩

theorem c5_witness :
    (generate_flashcards false (.obj []) stubUpstream).1.status = 400 ∧
    (generate_flashcards false (.obj []) stubUpstream).2 = none :=
  c5_validation_short_circuits false (.obj []) stubUpstream (Or.inl rfl)

/-- A request with a valid prompt that reaches the outbound call maps an
upstream failure through the handler's `except` clauses. -/
theorem generate_upstream_failure (fs : List (String × JsonVal)) (s : String)
    (f : UpstreamFailure) (hs : lookupField fs "prompt" = some (.str s))
    (h1 : pyStripStr s ≠ "") (h2 : ¬ 4000 < pyLen s) :
    (generate_flashcards true (.obj fs) (fun _ => .failure f)).1 = mapUpstreamFailure f := by
  have hpv : promptValB fs = some (.str s) := by
    simp only [promptValB, hs]
  have hE := extractPrompt_obj_val fs (.str s) hpv
  have hV := validatePrompt_some s h1
  simp [generate_flashcards, runGenerate, hE, afterPrompt, hV, pyDictGetDefault, h2]

/-- Claim C3 counterexample: an upstream timeout (`APITimeoutError`, an
`OpenAIError` subclass with no dedicated `except` clause) is answered with
500, not the claimed 504; an upstream transport error likewise gets 500,
not 502. -/
theorem c3_counterexample :
    (generate_flashcards true (.obj [("prompt", .str "hi")])
      (fun _ => .failure .timeout)).1.status = 500 ∧
    (generate_flashcards true (.obj [("prompt", .str "hi")])
      (fun _ => .failure .timeout)).1.status ≠ 504 ∧
    (generate_flashcards true (.obj [("prompt", .str "hi")])
      (fun _ => .failure .connection)).1.status = 500 ∧
    (generate_flashcards true (.obj [("prompt", .str "hi")])
      (fun _ => .failure .connection)).1.status ≠ 502 := by
  exact ⟨rfl, by decide, rfl, by decide⟩

/-- Claim C3 (amended: the handler maps rate limiting to 429, auth
rejection to 401, upstream bad request to 400, and every other upstream
failure — including timeouts and transport errors, which have no dedicated
clause — to 500; no 504 or 502 is ever produced): a request reaching the
outbound call answers an upstream failure exactly per `mapUpstreamFailure`. -/
theorem c3_upstream_failure_statuses (fs : List (String × JsonVal)) (s : String)
    (f : UpstreamFailure) (hs : lookupField fs "prompt" = some (.str s))
    (h1 : pyStripStr s ≠ "") (h2 : ¬ 4000 < pyLen s) :
    (generate_flashcards true (.obj fs) (fun _ => .failure f)).1 = mapUpstreamFailure f ∧
    (mapUpstreamFailure .rateLimit).status = 429 ∧
    (mapUpstreamFailure .auth).status = 401 ∧
    (mapUpstreamFailure .badRequest).status = 400 ∧
    (mapUpstreamFailure .timeout).status = 500 ∧
    (mapUpstreamFailure .connection).status = 500 ∧
    (mapUpstreamFailure .otherOpenAI).status = 500 ∧
    (mapUpstreamFailure .otherExc).status = 500 :=
  ⟨generate_upstream_failure fs s f hs h1 h2, rfl, rfl, rfl, rfl, rfl, rfl, rfl⟩

theorem c3_witness :
    lookupField [("prompt", JsonVal.str "hi")] "prompt" = some (.str "hi") ∧
    pyStripStr "hi" ≠ "" ∧
    ¬ 4000 < pyLen "hi" ∧
    (generate_flashcards true (.obj [("prompt", .str "hi")])
      (fun _ => .failure .rateLimit)).1.status = 429 := by
  refine ⟨rfl, by decide, by decide, ?_⟩
  rw [(c3_upstream_failure_statuses [("prompt", .str "hi")] "hi" .rateLimit rfl
    (by decide) (by decide)).1]
  rfl

/-- Claim C10: a present, truthy, non-string prompt value escapes the
validation checks and `prompt.strip()` raises `AttributeError`, which the
catch-all clause answers with 500 "Internal server error", not 400. -/
theorem c10_nonstring_prompt_500 (fs : List (String × JsonVal)) (v : JsonVal)
    (u : CallParams → UpstreamOutcome) (hv : lookupField fs "prompt" = some v)
    (ht : pyTruthy v = true) (hns : ∀ s, v ≠ .str s) :
    generate_flashcards true (.obj fs) u = (errResp 500 "Internal server error", none) ∧
    (generate_flashcards true (.obj fs) u).1.status = 500 ∧
    (generate_flashcards true (.obj fs) u).1.status ≠ 400 := by
  have hpv : promptValB fs = some v := by
    simp only [promptValB, hv]
  have hE := extractPrompt_obj_val fs v hpv
  have hV : validatePrompt v = .error .attributeError := by
    cases v with
    | str s => exact absurd rfl (hns s)
    | null => simp [pyTruthy] at ht
    | bool b => simp [validatePrompt, ht]
    | int n => simp [validatePrompt, ht]
    | float q => simp [validatePrompt, ht]
    | arr xs => simp [validatePrompt, ht]
    | obj fs2 => simp [validatePrompt, ht]
  have hEq : generate_flashcards true (.obj fs) u =
      (errResp 500 "Internal server error", none) := by
    simp [generate_flashcards, runGenerate, hE, afterPrompt, hV]
  refine ⟨hEq, ?_, ?_⟩
  · rw [hEq]
    rfl
  · rw [hEq]
    exact (by decide : (500 : Nat) ≠ 400)

theorem c10_witness :
    lookupField [("prompt", JsonVal.int 5)] "prompt" = some (.int 5) ∧
    pyTruthy (JsonVal.int 5) = true ∧
    (generate_flashcards true (.obj [("prompt", .int 5)]) stubUpstream).1.status = 500 :=
  ⟨rfl, by decide,
    (c10_nonstring_prompt_500 [("prompt", .int 5)] (.int 5) stubUpstream rfl (by decide)
      (fun _ h => JsonVal.noConfusion h)).2.1⟩

theorem normalizeModel_mem (v : JsonVal) : normalizeModel v ∈ valid_models := by
  have hd : ("gpt-3.5-turbo" : String) ∈ valid_models := by decide
  cases v with
  | str s =>
    simp only [normalizeModel]
    by_cases hs : s ∈ valid_models
    · rwa [if_pos hs]
    · rwa [if_neg hs]
  | null => exact hd
  | bool b => exact hd
  | int n => exact hd
  | float q => exact hd
  | arr xs => exact hd
  | obj fs2 => exact hd

theorem normalizeMaxTokens_range (v : JsonVal) :
    1 ≤ normalizeMaxTokens v ∧ normalizeMaxTokens v ≤ 4000 := by
  unfold normalizeMaxTokens
  by_cases hc : pyIsInstInt v = true ∧ 1 ≤ pyIntVal v ∧ pyIntVal v ≤ 4000
  · rw [if_pos hc]
    exact ⟨hc.2.1, hc.2.2⟩
  · rw [if_neg hc]
    exact ⟨by norm_num, by norm_num⟩

theorem normalizeTemperature_range (v : JsonVal) :
    0 ≤ normalizeTemperature v ∧ normalizeTemperature v ≤ 2 := by
  unfold normalizeTemperature
  by_cases hc : pyIsInstNumeric v = true ∧ 0 ≤ pyRatVal v ∧ pyRatVal v ≤ 2
  · rw [if_pos hc]
    exact ⟨hc.2.1, hc.2.2⟩
  · rw [if_neg hc]
    exact ⟨by norm_num, by norm_num⟩

theorem normalizeModel_fallback (v : JsonVal)
    (h : ∀ s, v = .str s → s ∉ valid_models) :
    normalizeModel v = "gpt-3.5-turbo" := by
  cases v with
  | str s =>
    simp only [normalizeModel]
    rw [if_neg (h s rfl)]
  | null => rfl
  | bool b => rfl
  | int n => rfl
  | float q => rfl
  | arr xs => rfl
  | obj fs2 => rfl

theorem normalizeMaxTokens_fallback (v : JsonVal)
    (h : ¬(pyIsInstInt v = true ∧ 1 ≤ pyIntVal v ∧ pyIntVal v ≤ 4000)) :
    normalizeMaxTokens v = 1000 := by
  unfold normalizeMaxTokens
  rw [if_neg h]

theorem normalizeTemperature_fallback (v : JsonVal)
    (h : ¬(pyIsInstNumeric v = true ∧ 0 ≤ pyRatVal v ∧ pyRatVal v ≤ 2)) :
    normalizeTemperature v = 7/10 := by
  unfold normalizeTemperature
  rw [if_neg h]

/-- The complete shape of `afterPrompt`'s possible results: a raised Python
error, an early 400 with no outbound call, or an outbound call whose
recorded parameters are built from the three normalizers, the fixed system
message and the validated prompt string. -/
theorem afterPrompt_shape (data pv : JsonVal) (u : CallParams → UpstreamOutcome) :
    (∃ e, afterPrompt data pv u = .error e) ∨
    (∃ code msg, afterPrompt data pv u = .ok (errResp code msg, none) ∧
      code ≠ 200 ∧ msg ≠ "") ∨
    (∃ mv tv temv s,
      (∃ c rm pt ct tt, afterPrompt data pv u = .ok (successResp c rm pt ct tt,
        some ⟨normalizeModel mv, normalizeMaxTokens tv, normalizeTemperature temv,
              systemPrompt, s⟩)) ∨
      (∃ f, afterPrompt data pv u = .ok (mapUpstreamFailure f,
        some ⟨normalizeModel mv, normalizeMaxTokens tv, normalizeTemperature temv,
              systemPrompt, s⟩))) := by
  rcases hV : validatePrompt pv with e | os
  · exact .inl ⟨e, by simp [afterPrompt, hV]⟩
  · cases os with
    | none =>
      exact .inr (.inl ⟨400, "Prompt cannot be empty",
        by simp [afterPrompt, hV], by decide, by decide⟩)
    | some s =>
      cases data with
      | obj fs =>
        by_cases hL : 4000 < pyLen s
        · exact .inr (.inl ⟨400, "Prompt too long (max 4000 characters)",
            by simp [afterPrompt, hV, pyDictGetDefault, hL], by decide, by decide⟩)
        · rcases hU : u ⟨normalizeModel ((lookupField fs "model").getD (.str "gpt-3.5-turbo")),
              normalizeMaxTokens ((lookupField fs "max_tokens").getD (.int 1000)),
              normalizeTemperature ((lookupField fs "temperature").getD (.float (7/10))),
              systemPrompt, s⟩ with ⟨c, rm, pt, ct, tt⟩ | f
          · exact .inr (.inr ⟨(lookupField fs "model").getD (.str "gpt-3.5-turbo"),
              (lookupField fs "max_tokens").getD (.int 1000),
              (lookupField fs "temperature").getD (.float (7/10)), s,
              .inl ⟨c, rm, pt, ct, tt,
                by simp [afterPrompt, hV, pyDictGetDefault, hL, hU]⟩⟩)
          · exact .inr (.inr ⟨(lookupField fs "model").getD (.str "gpt-3.5-turbo"),
              (lookupField fs "max_tokens").getD (.int 1000),
              (lookupField fs "temperature").getD (.float (7/10)), s,
              .inr ⟨f, by simp [afterPrompt, hV, pyDictGetDefault, hL, hU]⟩⟩)
      | null => exact .inl ⟨.attributeError, by simp [afterPrompt, hV, pyDictGetDefault]⟩
      | bool b => exact .inl ⟨.attributeError, by simp [afterPrompt, hV, pyDictGetDefault]⟩
      | int n => exact .inl ⟨.attributeError, by simp [afterPrompt, hV, pyDictGetDefault]⟩
      | float q => exact .inl ⟨.attributeError, by simp [afterPrompt, hV, pyDictGetDefault]⟩
      | str s2 => exact .inl ⟨.attributeError, by simp [afterPrompt, hV, pyDictGetDefault]⟩
      | arr xs => exact .inl ⟨.attributeError, by simp [afterPrompt, hV, pyDictGetDefault]⟩

/-- The outbound-call record of the handler: absent, or built from the
normalizers. -/
theorem generate_snd_shape (isJson : Bool) (data : JsonVal)
    (u : CallParams → UpstreamOutcome) :
    (generate_flashcards isJson data u).2 = none ∨
    (∃ mv tv temv s, (generate_flashcards isJson data u).2 =
      some ⟨normalizeModel mv, normalizeMaxTokens tv, normalizeTemperature temv,
            systemPrompt, s⟩) := by
  cases isJson with
  | false => left; rfl
  | true =>
    rcases hE : extractPrompt data with e | sv
    · left
      simp [generate_flashcards, runGenerate, hE]
    · cases sv with
      | inl msg =>
        left
        simp [generate_flashcards, runGenerate, hE]
      | inr v =>
        rcases afterPrompt_shape data v u with ⟨e, hA⟩ | ⟨code, msg, hA, _, _⟩ |
          ⟨mv, tv, temv, s, ⟨c, rm, pt, ct, tt, hA⟩ | ⟨f, hA⟩⟩
        · left
          simp [generate_flashcards, runGenerate, hE, hA]
        · left
          simp [generate_flashcards, runGenerate, hE, hA]
        · right
          exact ⟨mv, tv, temv, s, by simp [generate_flashcards, runGenerate, hE, hA]⟩
        · right
          exact ⟨mv, tv, temv, s, by simp [generate_flashcards, runGenerate, hE, hA]⟩

/-- Claim C4: every outbound call satisfies the parameter invariant — the
model belongs to the allow-list, `max_tokens` lies in [1,4000] and the
temperature lies in [0,2] — and an unknown model, a non-integer or
out-of-range `max_tokens`, and a non-numeric or out-of-range temperature
are silently replaced by `"gpt-3.5-turbo"`, 1000 and 0.7 respectively. -/
theorem c4_outbound_call_invariants (isJson : Bool) (data : JsonVal)
    (u : CallParams → UpstreamOutcome) (p : CallParams)
    (h : (generate_flashcards isJson data u).2 = some p) :
    (p.model ∈ valid_models ∧ 1 ≤ p.maxTokens ∧ p.maxTokens ≤ 4000 ∧
      0 ≤ p.temperature ∧ p.temperature ≤ 2) ∧
    (∀ v, (∀ s, v = .str s → s ∉ valid_models) → normalizeModel v = "gpt-3.5-turbo") ∧
    (∀ v, ¬(pyIsInstInt v = true ∧ 1 ≤ pyIntVal v ∧ pyIntVal v ≤ 4000) →
      normalizeMaxTokens v = 1000) ∧
    (∀ v, ¬(pyIsInstNumeric v = true ∧ 0 ≤ pyRatVal v ∧ pyRatVal v ≤ 2) →
      normalizeTemperature v = 7/10) := by
  obtain ⟨mv, tv, temv, s, hp⟩ : ∃ mv tv temv s,
      p = ⟨normalizeModel mv, normalizeMaxTokens tv, normalizeTemperature temv,
           systemPrompt, s⟩ := by
    rcases generate_snd_shape isJson data u with hn | ⟨mv, tv, temv, s, hsome⟩
    · rw [hn] at h
      cases h
    · rw [hsome] at h
      exact ⟨mv, tv, temv, s, (Option.some.injEq _ _ ▸ h).symm⟩
  subst hp
  exact ⟨⟨normalizeModel_mem mv, (normalizeMaxTokens_range tv).1,
      (normalizeMaxTokens_range tv).2, (normalizeTemperature_range temv).1,
      (normalizeTemperature_range temv).2⟩,
    normalizeModel_fallback, normalizeMaxTokens_fallback, normalizeTemperature_fallback⟩

theorem c4_witness :
    (generate_flashcards true c4Data stubUpstream).2 = some c4Params ∧
    c4Params.model ∈ valid_models ∧ 1 ≤ c4Params.maxTokens ∧
    c4Params.maxTokens ≤ 4000 ∧ 0 ≤ c4Params.temperature ∧ c4Params.temperature ≤ 2 := by
  have h : (generate_flashcards true c4Data stubUpstream).2 = some c4Params := rfl
  have hc := (c4_outbound_call_invariants true c4Data stubUpstream c4Params h).1
  exact ⟨h, hc.1, hc.2.1, hc.2.2.1, hc.2.2.2.1, hc.2.2.2.2⟩

/-- The only two messages the extraction phase can put into an early 400. -/
theorem extractPrompt_inl_msg (data : JsonVal) (msg : String)
    (h : extractPrompt data = .ok (.inl msg)) :
    msg = "Either prompt or messages are required" ∨
    msg = "No user message found with content or prompt" := by
  cases data with
  | null => simp [extractPrompt, pyContains] at h
  | bool b => simp [extractPrompt, pyContains] at h
  | int n => simp [extractPrompt, pyContains] at h
  | float q => simp [extractPrompt, pyContains] at h
  | str s =>
    cases hc : charListHasSub "prompt".data s.data with
    | true => simp [extractPrompt, pyContains, pySubscript, hc] at h
    | false =>
      cases hc2 : charListHasSub "messages".data s.data with
      | true => simp [extractPrompt, pyContains, pySubscript, hc, hc2] at h
      | false =>
        simp [extractPrompt, pyContains, pySubscript, hc, hc2] at h
        exact .inl h.symm
  | arr xs =>
    cases hc : xs.any (fun v => jsonEqStr v "prompt") with
    | true => simp [extractPrompt, pyContains, pySubscript, hc] at h
    | false =>
      cases hc2 : xs.any (fun v => jsonEqStr v "messages") with
      | true => simp [extractPrompt, pyContains, pySubscript, hc, hc2] at h
      | false =>
        simp [extractPrompt, pyContains, pySubscript, hc, hc2] at h
        exact .inl h.symm
  | obj fs =>
    cases hp : lookupField fs "prompt" with
    | some w => simp [extractPrompt, pyContains, pySubscript, hp] at h
    | none =>
      cases hm : lookupField fs "messages" with
      | none =>
        simp [extractPrompt, pyContains, pySubscript, hp, hm] at h
        exact .inl h.symm
      | some m =>
        cases m with
        | arr msgs =>
          cases he : msgs.isEmpty with
          | true =>
            simp [extractPrompt, pyContains, pySubscript, hp, hm, he] at h
            exact .inl h.symm
          | false =>
            cases hf : findUserMessage msgs with
            | error e =>
              simp [extractPrompt, pyContains, pySubscript, hp, hm, he, hf] at h
            | ok c =>
              cases ht : pyTruthy c with
              | true =>
                simp [extractPrompt, pyContains, pySubscript, hp, hm, he, hf, ht] at h
              | false =>
                simp [extractPrompt, pyContains, pySubscript, hp, hm, he, hf, ht] at h
                exact .inr h.symm
        | null =>
          simp [extractPrompt, pyContains, pySubscript, hp, hm] at h
          exact .inl h.symm
        | bool b =>
          simp [extractPrompt, pyContains, pySubscript, hp, hm] at h
          exact .inl h.symm
        | int n =>
          simp [extractPrompt, pyContains, pySubscript, hp, hm] at h
          exact .inl h.symm
        | float q =>
          simp [extractPrompt, pyContains, pySubscript, hp, hm] at h
          exact .inl h.symm
        | str s2 =>
          simp [extractPrompt, pyContains, pySubscript, hp, hm] at h
          exact .inl h.symm
        | obj fs2 =>
          simp [extractPrompt, pyContains, pySubscript, hp, hm] at h
          exact .inl h.symm

/-- Every response of the `/generate` handler is either the 200 success
envelope or a bare `{success:false, error}` envelope with a non-200 status
and a non-empty message. -/
theorem generate_resp_shape (isJson : Bool) (data : JsonVal)
    (u : CallParams → UpstreamOutcome) :
    (∃ c rm pt ct tt, (generate_flashcards isJson data u).1 = successResp c rm pt ct tt) ∨
    (∃ code msg, (generate_flashcards isJson data u).1 = errResp code msg ∧
      code ≠ 200 ∧ msg ≠ "") := by
  cases isJson with
  | false =>
    right
    exact ⟨400, "Request must be JSON", rfl, by decide, by decide⟩
  | true =>
    rcases hE : extractPrompt data with e | sv
    · right
      exact ⟨500, "Internal server error",
        by simp [generate_flashcards, runGenerate, hE], by decide, by decide⟩
    · cases sv with
      | inl msg =>
        right
        have hne : msg ≠ "" := by
          rcases extractPrompt_inl_msg data msg hE with h1 | h1 <;> subst h1 <;> decide
        exact ⟨400, msg, by simp [generate_flashcards, runGenerate, hE], by decide, hne⟩
      | inr v =>
        rcases afterPrompt_shape data v u with ⟨e, hA⟩ | ⟨code, msg, hA, hc, hm⟩ |
          ⟨mv, tv, temv, s, ⟨c, rm, pt, ct, tt, hA⟩ | ⟨f, hA⟩⟩
        · right
          exact ⟨500, "Internal server error",
            by simp [generate_flashcards, runGenerate, hE, hA], by decide, by decide⟩
        · right
          exact ⟨code, msg, by simp [generate_flashcards, runGenerate, hE, hA], hc, hm⟩
        · left
          exact ⟨c, rm, pt, ct, tt, by simp [generate_flashcards, runGenerate, hE, hA]⟩
        · right
          obtain ⟨code, msg, hf, hc, hm⟩ := mapUpstreamFailure_shape f
          exact ⟨code, msg, by simp [generate_flashcards, runGenerate, hE, hA, hf], hc, hm⟩

/-- Claim C6 counterexample: the 404 route-level handler's body has no
`success` field at all, only the error string — contradicting the claim
that every error response carries `success:false`. -/
theorem c6_counterexample :
    not_found.status = 404 ∧
    bodyLookup not_found "success" = none ∧
    bodyLookup not_found "error" = some (.str "Endpoint not found") :=
  ⟨rfl, rfl, rfl⟩

/-- Claim C6 (amended: every error response of the `/generate` handler
carries `success:false` and a non-empty error string; the route-level
404/405/500 handlers carry only the error string, with no `success`
field). -/
theorem c6_error_envelope (isJson : Bool) (data : JsonVal)
    (u : CallParams → UpstreamOutcome)
    (h : (generate_flashcards isJson data u).1.status ≠ 200) :
    (bodyLookup (generate_flashcards isJson data u).1 "success" = some (.bool false) ∧
      ∃ e, bodyLookup (generate_flashcards isJson data u).1 "error" = some (.str e) ∧
        e ≠ "") ∧
    bodyLookup not_found "success" = none ∧
    bodyLookup not_found "error" = some (.str "Endpoint not found") ∧
    bodyLookup method_not_allowed "success" = none ∧
    bodyLookup method_not_allowed "error" = some (.str "Method not allowed") ∧
    bodyLookup internal_error "success" = none ∧
    bodyLookup internal_error "error" = some (.str "Internal server error") := by
  refine ⟨?_, rfl, rfl, rfl, rfl, rfl, rfl⟩
  rcases generate_resp_shape isJson data u with ⟨c, rm, pt, ct, tt, hEq⟩ |
    ⟨code, msg, hEq, hc, hm⟩
  · rw [hEq] at h
    exact absurd rfl h
  · rw [hEq]
    exact ⟨rfl, msg, rfl, hm⟩

theorem c6_witness :
    (generate_flashcards false (.obj []) stubUpstream).1.status ≠ 200 ∧
    bodyLookup (generate_flashcards false (.obj []) stubUpstream).1 "success" =
      some (.bool false) :=
  ⟨by decide, (c6_error_envelope false (.obj []) stubUpstream (by decide)).1.1⟩

/-- Claim C7 counterexample: `/health` is registered for GET only, so a
POST to `/health` goes through the 405 handler, not to a 200 — refuting
end-to-end scenario 1 of the spec. -/
theorem c7_counterexample :
    (dispatch .POST "/health" "2024-01-01T00:00:00" true (.obj []) stubUpstream).status
      = 405 ∧
    (dispatch .POST "/health" "2024-01-01T00:00:00" true (.obj []) stubUpstream).status
      ≠ 200 :=
  ⟨rfl, by decide⟩

/-- Claim C7 (amended: `/health` is GET-only — POST answers 405 through the
method-not-allowed handler, while GET answers 200 with
`status:"healthy"`). -/
theorem c7_health_methods (ts : String) (isJson : Bool) (data : JsonVal)
    (u : CallParams → UpstreamOutcome) :
    dispatch .POST "/health" ts isJson data u = method_not_allowed ∧
    (dispatch .POST "/health" ts isJson data u).status = 405 ∧
    dispatch .GET "/health" ts isJson data u = health_check ts ∧
    (dispatch .GET "/health" ts isJson data u).status = 200 ∧
    bodyLookup (dispatch .GET "/health" ts isJson data u) "status" =
      some (.str "healthy") :=
  ⟨rfl, rfl, rfl, rfl, rfl⟩

/-- Rendering well-formed blocks and extracting yields exactly the trimmed
question/answer pairs in source order, whatever the indices are. -/
theorem extractAux_renderBlocks (bs : List Block) (cur : Option (List Line)) :
    extractAux (renderBlocks bs) cur =
      finishBlock cur ++ bs.map (fun b => (pyStripStr b.question, pyStripStr b.answer)) := by
  induction bs generalizing cur with
  | nil => simp [renderBlocks, extractAux]
  | cons b bs ih =>
    simp [renderBlocks, renderBlock, extractAux, lineIndex, ih, finishBlock,
      parseBlock, joinLines]

/-- A text without any index marker extracts to the empty sequence. -/
theorem extractAux_no_index (lines : List Line)
    (h : ∀ l ∈ lines, lineIndex l = none) :
    extractAux lines none = [] := by
  induction lines with
  | nil => rfl
  | cons l rest ih =>
    have hl := h l (List.mem_cons_self l rest)
    simp [extractAux, hl, ih (fun x hx => h x (List.mem_cons_of_mem l hx))]

/-- Claim C8 (spec-modelled extractor): for any sequence of well-formed
blocks — indices arbitrary, duplicated or out of numeric order — the
extractor yields one trimmed record per block in source order, never
sorting by index; and on text with no matching block at all it yields the
empty sequence rather than an error. -/
theorem c8_extractor_order_and_tolerance :
    (∀ bs : List Block, extractFlashcards (renderBlocks bs) =
      bs.map (fun b => (pyStripStr b.question, pyStripStr b.answer))) ∧
    (∀ lines : List Line, (∀ l ∈ lines, lineIndex l = none) →
      extractFlashcards lines = []) := by
  constructor
  · intro bs
    simp [extractFlashcards, extractAux_renderBlocks, finishBlock]
  · intro lines h
    exact extractAux_no_index lines h

theorem c8_witness :
    extractFlashcards (renderBlocks [⟨2, " Q2 ", "A2"⟩, ⟨1, "Q1", " A1 "⟩]) =
      [("Q2", "A2"), ("Q1", "A1")] ∧
    extractFlashcards [Line.other "no matching blocks"] = [] := by
  constructor
  · rw [c8_extractor_order_and_tolerance.1 [⟨2, " Q2 ", "A2"⟩, ⟨1, "Q1", " A1 "⟩]]
    decide
  · exact c8_extractor_order_and_tolerance.2 [Line.other "no matching blocks"] (by decide)

/-- Claim C9 counterexample: a body whose messages list holds a non-object
element — here the number 42 — makes `msg.get('role')` raise
`AttributeError`, so the handler answers 500 through the catch-all clause
instead of the claimed 400, even though no user message with content
exists. -/
theorem c9_counterexample :
    (generate_flashcards true (.obj [("messages", .arr [.int 42])]) stubUpstream).1.status
      = 500 ∧
    (generate_flashcards true (.obj [("messages", .arr [.int 42])]) stubUpstream).1.status
      ≠ 400 :=
  ⟨rfl, by decide⟩

/-- Claim C9 (amended: provided the scan of the messages list completes
without raising — a non-object element before the first user-role message
instead raises and yields 500): when the scan yields a truthy value, the
request is processed identically to supplying that value directly as
`prompt`; when it yields nothing truthy, the handler answers 400. -/
theorem c9_messages_fallback (fs : List (String × JsonVal)) (msgs : List JsonVal)
    (u : CallParams → UpstreamOutcome)
    (h1 : lookupField fs "prompt" = none)
    (h2 : lookupField fs "messages" = some (.arr msgs))
    (h3 : msgs ≠ []) :
    (∀ c, findUserMessage msgs = .ok c → pyTruthy c = true →
      generate_flashcards true (.obj fs) u =
        generate_flashcards true (.obj (("prompt", c) :: fs)) u) ∧
    (∀ c, findUserMessage msgs = .ok c → pyTruthy c = false →
      (generate_flashcards true (.obj fs) u).1.status = 400) := by
  have hne : msgs.isEmpty = false := by
    cases msgs with
    | nil => exact absurd rfl h3
    | cons a l => rfl
  constructor
  · intro c hf ht
    have hpv1 : promptValB fs = some c := by
      simp [promptValB, h1, h2, hne, hf, ht]
    have hE1 := extractPrompt_obj_val fs c hpv1
    have hpv2 : promptValB (("prompt", c) :: fs) = some c := by
      simp [promptValB, lookupField]
    have hE2 := extractPrompt_obj_val (("prompt", c) :: fs) c hpv2
    have hm : lookupField (("prompt", c) :: fs) "model" = lookupField fs "model" :=
      lookupField_cons_ne _ _ _ _ (by decide)
    have hmt : lookupField (("prompt", c) :: fs) "max_tokens" =
        lookupField fs "max_tokens" :=
      lookupField_cons_ne _ _ _ _ (by decide)
    have hte : lookupField (("prompt", c) :: fs) "temperature" =
        lookupField fs "temperature" :=
      lookupField_cons_ne _ _ _ _ (by decide)
    simp [generate_flashcards, runGenerate, hE1, hE2, afterPrompt, pyDictGetDefault,
      hm, hmt, hte]
  · intro c hf ht
    have hmiss : promptMissingB fs = true := by
      simp [promptMissingB, h1, h2, hne, hf, ht]
    rcases extractPrompt_obj_missing fs hmiss with hE | hE <;>
      simp [generate_flashcards, runGenerate, hE, errResp]

theorem c9_witness :
    lookupField [("messages",
        JsonVal.arr [.obj [("role", .str "user"), ("content", .str "hey")]])] "prompt"
      = none ∧
    findUserMessage [.obj [("role", .str "user"), ("content", .str "hey")]] =
      .ok (.str "hey") ∧
    generate_flashcards true
        (.obj [("messages", .arr [.obj [("role", .str "user"), ("content", .str "hey")]])])
        stubUpstream =
      generate_flashcards true
        (.obj [("prompt", .str "hey"),
               ("messages", .arr [.obj [("role", .str "user"), ("content", .str "hey")]])])
        stubUpstream :=
  ⟨rfl, rfl,
    (c9_messages_fallback
      [("messages", .arr [.obj [("role", .str "user"), ("content", .str "hey")]])]
      [.obj [("role", .str "user"), ("content", .str "hey")]]
      stubUpstream rfl rfl (by simp)).1 (.str "hey") rfl rfl⟩

end FlashcardBackend
